import Mathlib

/-!
Shallow embedding of `crates/ui/src/notification.rs` (gpui-component):
the `Notification` item and the `NotificationList` manager.

Modelling conventions:
* `ElementId` is gpui's element identity (a name or an integer), with
  decidable equality.
* The `on_click` closure (`Arc<dyn Fn(&ClickEvent, &mut WindowContext)>`)
  is modelled as an opaque handle (`Callback := Nat`); what the claims need
  is its presence and how often a click activation invokes it.
* Event emission (`cx.emit(DismissEvent)`) and callback invocation are
  modelled as an explicit list of `Effect`s produced by a listener.
* `cx.spawn(...)`/`Timer::after` in `perform_autohide` is modelled by
  counting, in an explicit `ItemState`, the detached one-shot dismiss-timer
  tasks the item has spawned; each spawn adds one task.
* A `View<Notification>` handle is modelled by the `Notification` value it
  wraps (`note.read(cx)` is the identity), so `NotificationList` holds a
  `List Notification`.
* The subscription closure registered in `NotificationList::push`
  (`view.notifications.retain(|note| id != note.read(cx).id)`) is the
  function `NotificationList.dismissHandler`, applied to whatever the list
  holds when the dismiss signal fires.
* Pixel arithmetic in the entry animation is exact here, over `ℚ`.
-/

/-- An element identity: gpui `ElementId`, either a (shared-string) name or
an integer. -/
inductive ElementId where
  | name (s : String)
  | integer (i : Nat)
deriving DecidableEq

/-- The severity class of a notification (`NotificationType`). -/
inductive NotificationType where
  | Info
  | Success
  | Warning
  | Error
deriving DecidableEq

/-- Icon asset names used by the notification widget. -/
inductive IconName where
  | Info
  | CircleCheck
  | TriangleAlert
  | CircleX
  | Close
deriving DecidableEq

/-- Theme colors the widget resolves for severity-derived icons. -/
inductive Color where
  | blue_500
  | green_500
  | yellow_500
  | red_500
deriving DecidableEq

/-- An icon reference: an asset name plus an optional text color. -/
structure Icon where
  iconName : IconName
  color : Option Color := none
deriving DecidableEq

/-- The `Icon::new` constructor. -/
def Icon.new (n : IconName) : Icon :=
  { iconName := n }

/-- The `Icon::text_color` builder. -/
def Icon.text_color (i : Icon) (c : Color) : Icon :=
  { i with color := some c }

/-- An opaque handle standing for an `on_click` closure value. -/
abbrev Callback := Nat

/-- The `Notification` value object (fields of `struct Notification`). -/
structure Notification where
  id : ElementId
  type_ : NotificationType
  title : Option String
  content : String
  icon : Option Icon
  autohide : Bool
  on_click : Option Callback
deriving DecidableEq

/-- The `Notification::new` constructor. The freshly generated random id
(`uuid::Uuid::new_v4().to_string()`) is passed in as `fresh_id`, since the
generator is ambient randomness outside this model. -/
def Notification.new (fresh_id : String) (content : String) : Notification :=
  { id := ElementId.name fresh_id
    title := none
    content := content
    type_ := NotificationType.Info
    icon := none
    autohide := true
    on_click := none }

/-- The `Notification::with_id` builder. -/
def Notification.with_id (n : Notification) (id : ElementId) : Notification :=
  { n with id := id }

/-- The `Notification::title` builder (named `set_title` here because the
field is already called `title`). -/
def Notification.set_title (n : Notification) (title : String) : Notification :=
  { n with title := some title }

/-- The `Notification::icon` builder (named `set_icon` here because the
field is already called `icon`). -/
def Notification.set_icon (n : Notification) (icon : Icon) : Notification :=
  { n with icon := some icon }

/-- The `Notification::with_type` builder. -/
def Notification.with_type (n : Notification) (t : NotificationType) : Notification :=
  { n with type_ := t }

/-- The `Notification::info` builder. -/
def Notification.info (n : Notification) : Notification :=
  { n with type_ := NotificationType.Info }

/-- The `Notification::success` builder. -/
def Notification.success (n : Notification) : Notification :=
  { n with type_ := NotificationType.Success }

/-- The `Notification::warning` builder. -/
def Notification.warning (n : Notification) : Notification :=
  { n with type_ := NotificationType.Warning }

/-- The `Notification::error` builder. -/
def Notification.set_error (n : Notification) : Notification :=
  { n with type_ := NotificationType.Error }

/-- The `Notification::autohide` builder (named `set_autohide` here because
the field is already called `autohide`). -/
def Notification.set_autohide (n : Notification) (autohide : Bool) : Notification :=
  { n with autohide := autohide }

/-- The `Notification::on_click` builder (named `set_on_click` here because
the field is already called `on_click`). -/
def Notification.set_on_click (n : Notification) (on_click : Callback) : Notification :=
  { n with on_click := some on_click }

/-- Per-mounted-item bookkeeping: how many detached one-shot autohide timer
tasks (`cx.spawn(... Timer::after(5s) ... emit(DismissEvent)).detach()`)
this item has registered so far. -/
structure ItemState where
  scheduledTimers : Nat
deriving DecidableEq

/-- The `Notification::perform_autohide` method: if `autohide` is false it
returns immediately; otherwise it spawns (and detaches) one more one-shot
5-second timer task that will emit `DismissEvent`. -/
def Notification.perform_autohide (n : Notification) (st : ItemState) : ItemState :=
  if !n.autohide then st
  else { st with scheduledTimers := st.scheduledTimers + 1 }

/-- An observable effect of activating a listener: emitting the
`DismissEvent`, or invoking the configured `on_click` closure. -/
inductive Effect where
  | emitDismiss
  | invokeCallback (cb : Callback)
deriving DecidableEq

/-- The `Notification::dismiss` handler: emits `DismissEvent`. -/
def Notification.dismiss (_n : Notification) : List Effect :=
  [Effect.emitDismiss]

/-- The observable pieces of the element tree `Notification::render`
builds: the (severity-derived or explicit) icon, the optional title line,
the body text, the click-region listener's effects (present only when
`on_click` is set: it emits `DismissEvent` then invokes the callback), and
the close-affordance button's click effects (present only when `autohide`
is false; its listener is `Notification::dismiss`). -/
structure NotificationView where
  viewIcon : Icon
  viewTitle : Option String
  viewContent : String
  click_effects : Option (List Effect)
  close_button : Option (List Effect)
deriving DecidableEq

/-- The `Notification::render` method. It first runs `perform_autohide`
(on every render call), then assembles the element tree; the returned
`ItemState` carries the timers spawned by this render. -/
def Notification.render (n : Notification) (st : ItemState) :
    ItemState × NotificationView :=
  let st := n.perform_autohide st
  let icon :=
    match n.icon with
    | some icon => icon
    | none =>
      match n.type_ with
      | NotificationType.Info => (Icon.new IconName.Info).text_color Color.blue_500
      | NotificationType.Success => (Icon.new IconName.CircleCheck).text_color Color.green_500
      | NotificationType.Warning => (Icon.new IconName.TriangleAlert).text_color Color.yellow_500
      | NotificationType.Error => (Icon.new IconName.CircleX).text_color Color.red_500
  (st,
    { viewIcon := icon
      viewTitle := n.title
      viewContent := n.content
      click_effects :=
        n.on_click.map (fun cb => [Effect.emitDismiss, Effect.invokeCallback cb])
      close_button :=
        if !n.autohide then some (n.dismiss) else none })

/-- Iterated re-rendering of one mounted item: `renderTimes n st k` is the
item state after `k` consecutive `render` calls starting from `st`. -/
def renderTimes (n : Notification) (st : ItemState) : Nat → ItemState
  | 0 => st
  | Nat.succ k => renderTimes n (n.render st).1 k

/-- The `x_offset` value of the entry animation closure in
`Notification::render`: `px(120.) + delta * px(-120.)`. -/
def x_offset (delta : ℚ) : ℚ :=
  120 + delta * (-120)

/-- The left position the animation closure assigns:
`this.left(px(0.) + x_offset)`. -/
def slide_left (delta : ℚ) : ℚ :=
  0 + x_offset delta

/-- The `NotificationList` manager: the ordered backing sequence of live
notification handles, oldest first. -/
structure NotificationList where
  notifications : List Notification
deriving DecidableEq

/-- The `NotificationList::new` constructor. -/
def NotificationList.new : NotificationList :=
  { notifications := [] }

/-- The `NotificationList::push` method: read the new item's id, retain
only the existing entries whose id differs (`note.read(cx).id != id`),
then append the new item at the end. (The dismiss subscription it also
registers is `NotificationList.dismissHandler` below, keyed by this id.) -/
def NotificationList.push (l : NotificationList) (n : Notification) : NotificationList :=
  let id := n.id
  { notifications := l.notifications.filter (fun note => note.id ≠ id) ++ [n] }

/-- The subscription closure `push` registers for a pushed item's
`DismissEvent`: `view.notifications.retain(|note| id != note.read(cx).id)`,
with `id` the id captured at subscription time and the retain running over
whatever the list holds when the signal fires. -/
def NotificationList.dismissHandler (l : NotificationList) (id : ElementId) : NotificationList :=
  { notifications := l.notifications.filter (fun note => id ≠ note.id) }

/-- The `NotificationList::clear` method. -/
def NotificationList.clear (_l : NotificationList) : NotificationList :=
  { notifications := [] }

/-- The windowing step of `NotificationList::render`:
`.iter().rev().take(10).rev()` over the backing sequence. -/
def last_10_notes (notes : List Notification) : List Notification :=
  ((notes.reverse.take 10).reverse)

/-- The `NotificationList::render` method: it lays out the last-10 window
of the backing sequence and leaves the list itself untouched (the returned
second component is the unchanged state). -/
def NotificationList.render (l : NotificationList) : List Notification × NotificationList :=
  (last_10_notes l.notifications, l)

/-- Pushing a batch of notifications in order (application-side glue used
by concrete test cases below). -/
def NotificationList.pushAll (l : NotificationList) (ns : List Notification) : NotificationList :=
  ns.foldl NotificationList.push l

/-! ### Concrete values used by the executable test cases and witnesses -/

/-- A plain notification with integer id `i`, autohide disabled. -/
def sampleNote (i : Nat) : Notification :=
  { id := ElementId.integer i
    type_ := NotificationType.Info
    title := none
    content := "body"
    icon := none
    autohide := false
    on_click := none }

/-- Fifteen notifications with distinct integer ids 1..15, autohide
disabled (the bounded-window test case of the spec). -/
def fifteenNotes : List Notification :=
  (List.range 15).map (fun i => sampleNote (i + 1))

/-- A notification with autohide enabled. -/
def autohideNote : Notification :=
  { id := ElementId.name "autohide-demo"
    type_ := NotificationType.Info
    title := none
    content := "transient"
    icon := none
    autohide := true
    on_click := none }

/-- A notification with a click callback configured (handle 7). -/
def clickNote : Notification :=
  { id := ElementId.name "click-demo"
    type_ := NotificationType.Success
    title := none
    content := "click me"
    icon := none
    autohide := true
    on_click := some 7 }

/-- A notification with autohide disabled (manual dismissal). -/
def manualNote : Notification :=
  { id := ElementId.integer 42
    type_ := NotificationType.Warning
    title := some "manual"
    content := "close me"
    icon := none
    autohide := false
    on_click := none }

/-! ### Shared helper lemmas -/

/-- Unfolding of `push`: keep the entries with a different id, append the
new one. -/
theorem push_notifications (l : NotificationList) (n : Notification) :
    (l.push n).notifications
      = l.notifications.filter (fun note => note.id ≠ n.id) ++ [n] := rfl

/-- The retained prefix of a `push` holds no entry with the pushed id. -/
theorem countP_filter_ne_id (notes : List Notification) (k : ElementId) :
    (notes.filter (fun note => note.id ≠ k)).countP (fun m => m.id = k) = 0 := by
  refine List.countP_eq_zero.mpr ?_
  intro a ha
  rcases List.mem_filter.mp ha with ⟨-, hne⟩
  simpa using of_decide_eq_true hne

/-- After the dismiss handler for key `k` runs, no entry with id `k` is
left in the sequence. -/
theorem dismissHandler_countP_self (l : NotificationList) (k : ElementId) :
    ((l.dismissHandler k).notifications).countP (fun m => m.id = k) = 0 := by
  refine List.countP_eq_zero.mpr ?_
  intro a ha
  rcases List.mem_filter.mp ha with ⟨-, hne⟩
  have : k ≠ a.id := of_decide_eq_true hne
  simpa using fun h => this h.symm

/-- The last-10 window is exactly the suffix obtained by dropping all but
the final `n` entries. -/
theorem take_rev_rev (l : List Notification) (n : Nat) :
    ((l.reverse.take n).reverse) = l.drop (l.length - n) := by
  rcases le_or_lt l.length n with h | h
  · rw [List.take_of_length_le (by simpa using h), List.reverse_reverse,
      Nat.sub_eq_zero_of_le h, List.drop_zero]
  · have hrev : (l.drop (l.length - n)).reverse = l.reverse.take n := by
      rw [List.reverse_drop]
      congr 1
      omega
    rw [← hrev, List.reverse_reverse]

/-! ### Claim theorems -/

/-- C2: starting from a list whose entries have pairwise-distinct ids,
`push n` leaves exactly one live entry with `n`'s id, every previously
present entry with that id is gone from the retained prefix, and the new
item sits at the last (most-recent) position. -/
theorem c2_push_dedup (l : NotificationList) (n : Notification)
    (_hu : (l.notifications.map Notification.id).Nodup) :
    (l.push n).notifications.countP (fun m => m.id = n.id) = 1
    ∧ (l.push n).notifications.dropLast.countP (fun m => m.id = n.id) = 0
    ∧ (l.push n).notifications.getLast? = some n := by
  refine ⟨?_, ?_, ?_⟩
  · rw [push_notifications, List.countP_append, countP_filter_ne_id]
    simp
  · rw [push_notifications, List.dropLast_append_of_ne_nil _ (by simp),
      List.dropLast_single, List.append_nil]
    exact countP_filter_ne_id l.notifications n.id
  · rw [push_notifications]
    simp

/-- C2 witness: pushing a replacement for id 1 into the two-element list
`[sampleNote 1, sampleNote 2]` puts the new item last. -/
theorem c2_push_dedup_witness :
    ((NotificationList.mk [sampleNote 1, sampleNote 2]).push
        { sampleNote 1 with content := "replacement" }).notifications.getLast?
      = some { sampleNote 1 with content := "replacement" } :=
  (c2_push_dedup ⟨[sampleNote 1, sampleNote 2]⟩
    { sampleNote 1 with content := "replacement" } (by decide)).2.2

/-- C3: the list's render output is exactly the last `min n 10` entries of
the backing sequence in their original order, the backing sequence is not
mutated by rendering, and in the concrete 15-push test case all 15 items
stay in the sequence while exactly the last 10 are rendered. -/
theorem c3_render_window (l : NotificationList) :
    l.render.1 = l.notifications.drop (l.notifications.length - 10)
    ∧ l.render.1.length = min l.notifications.length 10
    ∧ l.render.2 = l
    ∧ (NotificationList.new.pushAll fifteenNotes).notifications = fifteenNotes
    ∧ fifteenNotes.length = 15
    ∧ (NotificationList.new.pushAll fifteenNotes).render.1 = fifteenNotes.drop 5 := by
  refine ⟨take_rev_rev l.notifications 10, ?_, rfl, by decide, by decide, by decide⟩
  show (last_10_notes l.notifications).length = _
  unfold last_10_notes
  rw [take_rev_rev, List.length_drop]
  omega

/-- C4: when the dismiss handler subscribed for key `k` fires, an entry is
in the resulting sequence exactly when it was in the current sequence and
its id differs from `k` (id equality is re-checked at removal time), and
the surviving entries keep their relative order. -/
theorem c4_dismiss_removes_by_id (l : NotificationList) (k : ElementId) (m : Notification) :
    (m ∈ (l.dismissHandler k).notifications ↔ (m ∈ l.notifications ∧ ¬ m.id = k))
    ∧ List.Sublist (l.dismissHandler k).notifications l.notifications := by
  constructor
  · simp only [NotificationList.dismissHandler, List.mem_filter, decide_eq_true_eq]
    constructor
    · rintro ⟨hm, hne⟩
      exact ⟨hm, fun h => hne h.symm⟩
    · rintro ⟨hm, hne⟩
      exact ⟨hm, fun h => hne h.symm⟩
  · exact List.filter_sublist l.notifications

/-- C5: `clear` empties the backing sequence, and a stale autohide timer
whose dismiss handler fires after the clear mutates nothing (the handler
on the cleared list is the identity, a silent no-op). -/
theorem c5_clear_stale_timer_noop (l : NotificationList) (k : ElementId) :
    (l.clear).notifications = []
    ∧ (l.clear).dismissHandler k = l.clear
    ∧ ((l.clear).dismissHandler k).notifications = [] :=
  ⟨rfl, rfl, rfl⟩

/-- C10: from an arbitrary backing sequence, even one already holding
several entries with the pushed id, `push n` leaves exactly one entry with
`n.id` (so it re-establishes the uniqueness invariant), every entry with
that id is the new item itself, and the new item is last. -/
theorem c10_push_restores_unique_id (l : NotificationList) (n : Notification) :
    (l.push n).notifications.countP (fun m => m.id = n.id) = 1
    ∧ ((l.push n).notifications.all (fun m => m.id ≠ n.id ∨ m = n)) = true
    ∧ (l.push n).notifications.getLast? = some n := by
  refine ⟨?_, ?_, ?_⟩
  · rw [push_notifications, List.countP_append, countP_filter_ne_id]
    simp
  · rw [push_notifications]
    refine List.all_eq_true.mpr ?_
    intro m hm
    rcases List.mem_append.mp hm with hm | hm
    · rcases List.mem_filter.mp hm with ⟨-, hne⟩
      exact decide_eq_true (Or.inl (of_decide_eq_true hne))
    · rcases List.mem_singleton.mp hm with rfl
      exact decide_eq_true (Or.inr rfl)
  · rw [push_notifications]
    simp

/-- C1: the code re-arms the autohide timer on every render.
`Notification::render` calls `perform_autohide` unconditionally, and
`perform_autohide` spawns a fresh detached 5-second dismiss timer whenever
`autohide` is true, with no once-per-mount guard: two renders of the same
mounted item register two timers, refuting "at most one timer per item
lifetime". -/
theorem c1_rerender_stacks_timers :
    autohideNote.autohide = true
    ∧ (renderTimes autohideNote { scheduledTimers := 0 } 1).scheduledTimers = 1
    ∧ (renderTimes autohideNote { scheduledTimers := 0 } 2).scheduledTimers = 2
    ∧ ¬ (renderTimes autohideNote { scheduledTimers := 0 } 2).scheduledTimers ≤ 1 := by
  refine ⟨rfl, rfl, rfl, by decide⟩

/-- C6: when `on_click` is configured, the click region's listener emits
the dismiss signal and invokes the configured callback exactly once per
activation, and the dismiss handler then leaves no entry with the item's
id in the owning list. -/
theorem c6_click_dismiss_invokes_once (n : Notification) (cb : Callback)
    (st : ItemState) (l : NotificationList) (h : n.on_click = some cb) :
    ((n.render st).2).click_effects
        = some [Effect.emitDismiss, Effect.invokeCallback cb]
    ∧ (((n.render st).2).click_effects.getD []).countP
        (fun e => e = Effect.invokeCallback cb) = 1
    ∧ Effect.emitDismiss ∈ (((n.render st).2).click_effects.getD [])
    ∧ ((l.push n).dismissHandler n.id).notifications.countP
        (fun m => m.id = n.id) = 0 := by
  have hce : ((n.render st).2).click_effects
      = some [Effect.emitDismiss, Effect.invokeCallback cb] := by
    simp [Notification.render, h]
  refine ⟨hce, ?_, ?_, dismissHandler_countP_self _ _⟩
  · rw [hce]
    simp
  · rw [hce]
    simp

/-- C6 witness: the concrete `clickNote` (callback handle 7) produces the
dismiss emission in its click effects, via the theorem at `clickNote`. -/
theorem c6_click_dismiss_invokes_once_witness :
    Effect.emitDismiss ∈ ((clickNote.render { scheduledTimers := 0 }).2).click_effects.getD [] :=
  (c6_click_dismiss_invokes_once clickNote 7 { scheduledTimers := 0 }
    NotificationList.new rfl).2.2.1

/-- C7: the rendered description holds the close affordance exactly when
`autohide` is false, that affordance's listener is `Notification::dismiss`
(it emits the dismiss signal), and — for a list whose other entries all
have a different id — pushing the item and then firing its dismiss handler
removes exactly that item, leaving the other entries untouched and in
order. -/
theorem c7_close_affordance (n : Notification) (st : ItemState)
    (l : NotificationList)
    (hl : l.notifications.countP (fun p => p.id = n.id) = 0) :
    ((n.render st).2).close_button.isSome = !n.autohide
    ∧ ((n.render st).2).close_button
        = (if n.autohide then none else some [Effect.emitDismiss])
    ∧ ((l.push n).dismissHandler n.id).notifications = l.notifications := by
  have hall : ∀ p ∈ l.notifications, ¬ p.id = n.id := by
    intro p hp
    have := List.countP_eq_zero.mp hl p hp
    simpa using this
  refine ⟨?_, ?_, ?_⟩
  · cases hb : n.autohide <;>
      simp [Notification.render, Notification.dismiss, hb]
  · cases hb : n.autohide <;>
      simp [Notification.render, Notification.dismiss, hb]
  · rw [NotificationList.dismissHandler, push_notifications]
    have hkeep : l.notifications.filter (fun note => note.id ≠ n.id) = l.notifications :=
      List.filter_eq_self.mpr (fun a ha => decide_eq_true (hall a ha))
    rw [hkeep, List.filter_append]
    have h1 : l.notifications.filter (fun note => n.id ≠ note.id) = l.notifications :=
      List.filter_eq_self.mpr
        (fun a ha => decide_eq_true (fun h => hall a ha h.symm))
    have h2 : [n].filter (fun note => n.id ≠ note.id) = [] := by
      simp
    rw [h1, h2, List.append_nil]

/-- C7 witness: `manualNote` (autohide off) pushed onto a one-element list
with a different id; firing its dismiss handler restores the original
sequence, via the theorem at these concrete values. -/
theorem c7_close_affordance_witness :
    (((NotificationList.mk [sampleNote 1]).push manualNote).dismissHandler
      manualNote.id).notifications = [sampleNote 1] :=
  (c7_close_affordance manualNote { scheduledTimers := 0 }
    ⟨[sampleNote 1]⟩ (by decide)).2.2

/-- C8: each builder-style configuration method returns a value that
differs from the receiver only in the field it names — every other field
is unchanged — and the call is a pure function of the receiver. -/
theorem c8_builders_frame (n : Notification) (i : ElementId) (t : String)
    (ic : Icon) (ty : NotificationType) (b : Bool) (cb : Callback) :
    ((n.with_id i).id = i ∧ (n.with_id i).type_ = n.type_
      ∧ (n.with_id i).title = n.title ∧ (n.with_id i).content = n.content
      ∧ (n.with_id i).icon = n.icon ∧ (n.with_id i).autohide = n.autohide
      ∧ (n.with_id i).on_click = n.on_click)
    ∧ ((n.set_title t).title = some t ∧ (n.set_title t).id = n.id
      ∧ (n.set_title t).type_ = n.type_ ∧ (n.set_title t).content = n.content
      ∧ (n.set_title t).icon = n.icon ∧ (n.set_title t).autohide = n.autohide
      ∧ (n.set_title t).on_click = n.on_click)
    ∧ ((n.set_icon ic).icon = some ic ∧ (n.set_icon ic).id = n.id
      ∧ (n.set_icon ic).type_ = n.type_ ∧ (n.set_icon ic).title = n.title
      ∧ (n.set_icon ic).content = n.content ∧ (n.set_icon ic).autohide = n.autohide
      ∧ (n.set_icon ic).on_click = n.on_click)
    ∧ ((n.with_type ty).type_ = ty ∧ (n.with_type ty).id = n.id
      ∧ (n.with_type ty).title = n.title ∧ (n.with_type ty).content = n.content
      ∧ (n.with_type ty).icon = n.icon ∧ (n.with_type ty).autohide = n.autohide
      ∧ (n.with_type ty).on_click = n.on_click)
    ∧ (n.info = n.with_type NotificationType.Info
      ∧ n.success = n.with_type NotificationType.Success
      ∧ n.warning = n.with_type NotificationType.Warning
      ∧ n.set_error = n.with_type NotificationType.Error)
    ∧ ((n.set_autohide b).autohide = b ∧ (n.set_autohide b).id = n.id
      ∧ (n.set_autohide b).type_ = n.type_ ∧ (n.set_autohide b).title = n.title
      ∧ (n.set_autohide b).content = n.content ∧ (n.set_autohide b).icon = n.icon
      ∧ (n.set_autohide b).on_click = n.on_click)
    ∧ ((n.set_on_click cb).on_click = some cb ∧ (n.set_on_click cb).id = n.id
      ∧ (n.set_on_click cb).type_ = n.type_ ∧ (n.set_on_click cb).title = n.title
      ∧ (n.set_on_click cb).content = n.content ∧ (n.set_on_click cb).icon = n.icon
      ∧ (n.set_on_click cb).autohide = n.autohide) := by
  repeat' apply And.intro
  all_goals rfl

/-- C9: the entry-transition offset `x_offset delta = 120 + delta * (-120)`
starts fully offset (`x_offset 0 = 120`), ends at rest (`x_offset 1 = 0`,
so the assigned left position is the resting 0), and is strictly
decreasing on `[0, 1]`. -/
theorem c9_entry_offset (a b : ℚ) (_ha : 0 ≤ a) (hab : a < b) (_hb : b ≤ 1) :
    x_offset 0 = 120
    ∧ x_offset 1 = 0
    ∧ slide_left 1 = 0
    ∧ x_offset b < x_offset a := by
  refine ⟨by norm_num [x_offset], by norm_num [x_offset],
    by norm_num [slide_left, x_offset], ?_⟩
  simp only [x_offset]
  linarith

/-- C9 witness: the theorem at the endpoints `a = 0`, `b = 1`. -/
theorem c9_entry_offset_witness :
    x_offset 0 = 120 ∧ x_offset 1 = 0 ∧ slide_left 1 = 0 ∧ x_offset 1 < x_offset 0 :=
  c9_entry_offset 0 1 (by norm_num) (by norm_num) (by norm_num)
